import Mathlib

/-!
# Verification of the dng-caption-tool caption orchestration core

Shallow embedding of `src/dng_caption/caption.py` (class `CaptionGenerator`)
and `src/dng_caption/gps.py` (class `GPSExtractor`), with theorems settling
the specification claims about provider/model resolution, prompt composition,
image preparation geometry, request dispatch, and geocoding retry behaviour.

Python dictionaries are modelled as ordered association lists, Python floats
appearing only as static cost metadata are modelled as exact rationals, and
Python exceptions are modelled as `Except` error values.  External effects
(image decoding, the remote vision API, the geocoding service) are modelled
as oracle parameters, and the effects a call performs are returned as an
explicit event trace.
-/

/-- One entry of a model catalog: canonical remote identifier, per-unit cost
estimate, human description (`CLAUDE_MODELS` / `OPENAI_MODELS` values). -/
structure ModelInfo where
  name : String
  cost : ℚ
  description : String
deriving DecidableEq

/-- Source `CaptionGenerator.CLAUDE_MODELS`: the Claude model catalog, in source
order. -/
def CLAUDE_MODELS : List (String × ModelInfo) :=
  [ ("haiku", { name := "claude-3-haiku-20240307", cost := 0.001,
                description := "Fast and affordable" }),
    ("sonnet", { name := "claude-3-5-sonnet-20241022", cost := 0.003,
                 description := "Best balance" }),
    ("opus", { name := "claude-opus-4-5-20251101", cost := 0.015,
               description := "Highest quality" }) ]

/-- Source `CaptionGenerator.OPENAI_MODELS`: the OpenAI model catalog, in source
order. -/
def OPENAI_MODELS : List (String × ModelInfo) :=
  [ ("gpt-4o", { name := "gpt-4o", cost := 0.005,
                 description := "Latest GPT-4 with vision" }),
    ("gpt-4o-mini", { name := "gpt-4o-mini", cost := 0.00015,
                      description := "Fast and affordable GPT-4" }),
    ("gpt-4-turbo", { name := "gpt-4-turbo", cost := 0.01,
                      description := "Previous GPT-4 Turbo" }) ]

/-- The `descriptive` entry of `CaptionGenerator.STYLES` (also the fallback
template used by `STYLES.get(style, STYLES[\x27descriptive\x27])`). -/
def descriptive_template : String :=
  "Write a 2-3 sentence professional caption for this image."

/-- Source `CaptionGenerator.STYLES`: style keyword to instruction template, in
source order. -/
def STYLES : List (String × String) :=
  [ ("descriptive", descriptive_template),
    ("social", "Generate an engaging, but straightforward caption for Instagram using the image and metadata. Follow these guidelines:\n- First line should be descriptive of what the subject is if known\n- Use a masculine voice and avoid excessively flowery language\n- Use any location data if available\n- Append the caption with up to 8 hashtags that are likely to drive traffic and engagement\n- Keep the tone engaging but direct"),
    ("minimal", "Write a brief one-sentence caption."),
    ("artistic", "Write a poetic, evocative caption."),
    ("documentary", "Write a factual, journalistic caption."),
    ("travel", "Write a travel photography caption emphasizing the location.") ]

/-- Source `self.STYLES.get(style, self.STYLES[\x27descriptive\x27])`: dictionary
lookup with the `descriptive` template as the default value. -/
def styles_get (style : String) : String :=
  (STYLES.lookup style).getD descriptive_template

/-- Characters Python `str.strip()` removes (the `str.isspace` ASCII set). -/
def py_space (c : Char) : Bool :=
  c = ' ' ∨ c = '\t' ∨ c = '\n' ∨ c = '\r' ∨ c = '\x0b' ∨ c = '\x0c'

/-- Python `str.strip()`: drop leading and trailing whitespace. -/
def py_strip (s : String) : String :=
  String.mk (((s.data.dropWhile py_space).reverse.dropWhile py_space).reverse)

/-- Python `repr` of a list of strings, as produced by
`list(d.keys())` inside an f-string: `[\x27k1\x27, \x27k2\x27]`. -/
def py_str_list_repr (keys : List String) : String :=
  "[" ++ String.intercalate ", " (keys.map (fun k => "\x27" ++ k ++ "\x27")) ++ "]"

/-- The `ValueError` message of `_generate_claude` for an invalid model key. -/
def claude_invalid_model_msg (model : String) : String :=
  "Invalid Claude model: " ++ model ++ ". Choose from " ++
    py_str_list_repr (CLAUDE_MODELS.map Prod.fst)

/-- The `ValueError` message of `_generate_openai` for an invalid model key. -/
def openai_invalid_model_msg (model : String) : String :=
  "Invalid OpenAI model: " ++ model ++ ". Choose from " ++
    py_str_list_repr (OPENAI_MODELS.map Prod.fst)

/-- Errors a `generate` call can raise (Python exceptions). -/
inductive CGError where
  | invalidModel (msg : String)
  | imageDecodeError (msg : String)
  | generationFailure (msg : String)
deriving DecidableEq

/-- The single Anthropic `messages.create` request issued by
`_generate_claude`: resolved canonical model name, `max_tokens`, base64
image data, and composed prompt text. -/
structure ClaudeRequest where
  model : String
  maxTokens : Nat
  imageData : String
  promptText : String
deriving DecidableEq

/-- An Anthropic response, abstracted to the `text` field of each entry of
`response.content`. -/
structure ClaudeResponse where
  content : List String
deriving DecidableEq

/-- The single OpenAI `chat.completions.create` request issued by
`_generate_openai`: resolved canonical model name, `max_tokens`, data-URI
image URL, and composed prompt text. -/
structure OpenAIRequest where
  model : String
  maxTokens : Nat
  imageUrl : String
  promptText : String
deriving DecidableEq

/-- An OpenAI response, abstracted to the `message.content` of each entry of
`response.choices`. -/
structure OpenAIResponse where
  choices : List String
deriving DecidableEq

/-- Observable effects of a `_generate_claude` call, in order. -/
inductive ClaudeEvent where
  | prepImage
  | netCall (req : ClaudeRequest)
deriving DecidableEq

/-- Observable effects of a `_generate_openai` call, in order. -/
inductive OpenAIEvent where
  | prepImage
  | netCall (req : OpenAIRequest)
deriving DecidableEq

/-- Line 120 of `caption.py`: `model = \x27opus\x27 if style == \x27social\x27
else \x27haiku\x27` when no model is given. -/
def claude_default_model (style : String) : String :=
  if style = "social" then "opus" else "haiku"

/-- Line 161 of `caption.py`: `model = \x27gpt-4o\x27 if style ==
\x27social\x27 else \x27gpt-4o-mini\x27` when no model is given. -/
def openai_default_model (style : String) : String :=
  if style = "social" then "gpt-4o" else "gpt-4o-mini"

/-- Lines 119-120: the model key `_generate_claude` works with after the
`if model is None` defaulting step. -/
def resolved_claude_model (style : String) (model : Option String) : String :=
  match model with
  | none => claude_default_model style
  | some m => m

/-- Lines 160-161: the model key `_generate_openai` works with after the
`if model is None` defaulting step. -/
def resolved_openai_model (style : String) (model : Option String) : String :=
  match model with
  | none => openai_default_model style
  | some m => m

/-- Lines 130-132 of `caption.py` (claude path): look up the style template
with `descriptive` fallback, then append `"\n\n" + location_context` when the
location context is truthy (present and non-empty). -/
def claude_build_prompt (style : String) (location_context : Option String) :
    String :=
  let prompt := styles_get style
  match location_context with
  | none => prompt
  | some loc => if loc = "" then prompt else prompt ++ "\n\n" ++ loc

/-- Lines 171-173 of `caption.py` (openai path): identical construction to
the claude path, duplicated in the source. -/
def openai_build_prompt (style : String) (location_context : Option String) :
    String :=
  let prompt := styles_get style
  match location_context with
  | none => prompt
  | some loc => if loc = "" then prompt else prompt ++ "\n\n" ++ loc

/-- Source `_generate_claude` (lines 112-151).  `prep` is the outcome of the
`_prepare_image` call (base64 string or decode failure); `net` is the remote
messages API.  Returns the caption (or raised error) together with the trace
of effects performed, in order. -/
def generate_claude (prep : Except CGError String)
    (net : ClaudeRequest → ClaudeResponse) (style : String)
    (model : Option String) (location_context : Option String) :
    Except CGError String × List ClaudeEvent :=
  -- `if model is None: model = ...`
  let model := resolved_claude_model style model
  -- `if model not in self.CLAUDE_MODELS: raise ValueError(...)`
  match CLAUDE_MODELS.lookup model with
  | none => (.error (.invalidModel (claude_invalid_model_msg model)), [])
  | some info =>
    -- `image_base64 = self._prepare_image(image_path)`
    match prep with
    | .error e => (.error e, [.prepImage])
    | .ok image_base64 =>
      let prompt := claude_build_prompt style location_context
      -- `response = self.client.messages.create(...)`
      let req : ClaudeRequest :=
        { model := info.name, maxTokens := 300,
          imageData := image_base64, promptText := prompt }
      let response := net req
      -- `return response.content[0].text.strip()`
      match response.content with
      | [] => (.error (.generationFailure "IndexError: list index out of range"),
               [.prepImage, .netCall req])
      | t :: _ => (.ok (py_strip t), [.prepImage, .netCall req])

/-- Source `_generate_openai` (lines 153-196), under the same conventions as
`generate_claude`; the image travels as a base64 data URI. -/
def generate_openai (prep : Except CGError String)
    (net : OpenAIRequest → OpenAIResponse) (style : String)
    (model : Option String) (location_context : Option String) :
    Except CGError String × List OpenAIEvent :=
  let model := resolved_openai_model style model
  match OPENAI_MODELS.lookup model with
  | none => (.error (.invalidModel (openai_invalid_model_msg model)), [])
  | some info =>
    match prep with
    | .error e => (.error e, [.prepImage])
    | .ok image_base64 =>
      let prompt := openai_build_prompt style location_context
      let req : OpenAIRequest :=
        { model := info.name, maxTokens := 300,
          imageUrl := "data:image/jpeg;base64," ++ image_base64,
          promptText := prompt }
      let response := net req
      -- `return response.choices[0].message.content.strip()`
      match response.choices with
      | [] => (.error (.generationFailure "IndexError: list index out of range"),
               [.prepImage, .netCall req])
      | t :: _ => (.ok (py_strip t), [.prepImage, .netCall req])

/-! ## Constructor (`CaptionGenerator.__init__`, lines 64-88) -/

/-- The two recognized providers. -/
inductive Provider where
  | claude
  | openai
deriving DecidableEq

/-- The provider/catalog/credential binding established at construction. -/
structure GenState where
  provider : Provider
  api_key : String
  models : List (String × ModelInfo)
deriving DecidableEq

/-- Python `a or b` on an optional string and a fallback optional string:
`None` and the empty string are falsy. -/
def py_or_str (a b : Option String) : Option String :=
  match a with
  | some s => if s = "" then b else some s
  | none => b

/-- Python truthiness check `if not self.api_key` on an optional string. -/
def py_falsy (a : Option String) : Bool :=
  match a with
  | some s => s = ""
  | none => true

/-- Python `str.lower()` as used on the provider name (`provider.lower()`):
ASCII lowercasing, character by character (`Char.toLower` lowercases
exactly the ASCII uppercase letters, which covers the recognized provider
spellings). -/
def py_lower (s : String) : String :=
  String.mk (s.data.map Char.toLower)

/-- The `ValueError` message of `__init__` for an unrecognized provider. -/
def invalid_provider_msg (provider : String) : String :=
  "Invalid provider: " ++ provider ++
    ". Must be \x27claude\x27 or \x27openai\x27"

/-- Source `CaptionGenerator.__init__` (lines 64-88).  `env` models
`os.environ.get`.  Lowercases the provider name, resolves the credential
from the argument or the provider-specific environment variable, and binds
the catalog; raises `ValueError` on a missing credential or an unrecognized
provider. -/
def caption_generator_init (api_key : Option String) (provider : String)
    (env : String → Option String) : Except String GenState :=
  let p := py_lower provider
  if p = "claude" then
    let key := py_or_str api_key (env "ANTHROPIC_API_KEY")
    if py_falsy key then
      .error "Anthropic API key required (set ANTHROPIC_API_KEY)"
    else
      .ok { provider := .claude, api_key := key.getD "", models := CLAUDE_MODELS }
  else if p = "openai" then
    let key := py_or_str api_key (env "OPENAI_API_KEY")
    if py_falsy key then
      .error "OpenAI API key required (set OPENAI_API_KEY)"
    else
      .ok { provider := .openai, api_key := key.getD "", models := OPENAI_MODELS }
  else
    .error (invalid_provider_msg provider)

/-! ## Image preparation geometry (`_prepare_image`, lines 198-208)

`_prepare_image` decodes, converts to RGB, calls
`img.thumbnail((1600, 1600), Image.Resampling.LANCZOS)`, re-encodes as JPEG
and base64-encodes.  The claims about it concern the resize geometry, modelled
here.  PIL `Image.thumbnail((x, y))` returns unchanged when `x >= width` and
`y >= height`; otherwise it shrinks the larger dimension to the bound and
rounds the other to the nearest integer of the proportional value (clamped
below by 1). -/

/-- PIL `round_aspect`: the proportionally scaled dimension `a / b` rounded
to the nearest integer (ties toward the smaller value, as Python `min`
prefers the first of `floor`, `ceil`), clamped below by 1. -/
def round_aspect (a b : Nat) : Nat :=
  max ((2 * a + b - 1) / (2 * b)) 1

/-- Output dimensions of `img.thumbnail((1600, 1600), LANCZOS)` on a
`width × height` image. -/
def thumbnail_dims (width height : Nat) : Nat × Nat :=
  if width ≤ 1600 ∧ height ≤ 1600 then (width, height)
  else if width ≤ height then (round_aspect (1600 * width) height, 1600)
  else (1600, round_aspect (1600 * height) width)

/-! ## Geocoding (`GPSExtractor.reverse_geocode` and `_parse_location`,
`gps.py` lines 52-70 and 85-108)

The geocoding service is modelled as an oracle giving the outcome of each
attempt: the two geopy exception classes the code catches
(`GeocoderTimedOut`, `GeocoderServiceError`), any other raised exception, or
a returned value (`None` or a location). -/

/-- The raw data of a geopy location: the `raw[\x27address\x27]` dictionary
and the `address` display string. -/
structure RawLocation where
  address_fields : List (String × String)
  address : String
deriving DecidableEq

/-- The dictionary `_parse_location` returns. -/
structure LocationInfo where
  formatted : String
  city : Option String
  state : Option String
  country : Option String
  full_address : String
deriving DecidableEq

/-- Python `a or b` chaining on `address.get(...)` results: `None` and the
empty string are falsy. -/
def py_or_opt (a b : Option String) : Option String :=
  match a with
  | some s => if s = "" then b else some s
  | none => b

/-- Source `GPSExtractor._parse_location` (lines 85-108): pick the city from the
first truthy of city/town/village/hamlet, collect truthy city/state/country
parts, and join them (falling back to the display address when no part is
truthy). -/
def parse_location (loc : RawLocation) : LocationInfo :=
  let address := loc.address_fields
  let city := py_or_opt (address.lookup "city")
    (py_or_opt (address.lookup "town")
      (py_or_opt (address.lookup "village") (address.lookup "hamlet")))
  let parts : List String :=
    (match city with | some c => if c = "" then [] else [c] | none => []) ++
    (match address.lookup "state" with
     | some s => if s = "" then [] else [s]
     | none => []) ++
    (match address.lookup "country" with
     | some c => if c = "" then [] else [c]
     | none => [])
  { formatted := if parts = [] then loc.address
                 else String.intercalate ", " parts,
    city := city,
    state := address.lookup "state",
    country := address.lookup "country",
    full_address := loc.address }

/-- Outcome of one `self.geolocator.reverse(...)` attempt. -/
inductive GeoOutcome where
  | timeout
  | serviceError
  | otherError (msg : String)
  | ok (loc : Option RawLocation)
deriving DecidableEq

/-- The loop body of `reverse_geocode`, by remaining fuel
(`fuel = retries - attempt`).  Returns the Python result (`Except` models an
uncaught exception), the number of attempts made, and the number of
`time.sleep(1)` calls performed. -/
def rg_loop (oracle : Nat → GeoOutcome) (retries : Nat) :
    Nat → Nat → Except String (Option LocationInfo) × Nat × Nat
  | 0, _ => (.ok none, 0, 0)
  | fuel + 1, attempt =>
    match oracle attempt with
    | .ok (some raw) => (.ok (some (parse_location raw)), 1, 0)
    | .ok none =>
      let (r, a, s) := rg_loop oracle retries fuel (attempt + 1)
      (r, a + 1, s)
    | .otherError msg => (.error msg, 1, 0)
    | .timeout =>
      if attempt < retries - 1 then
        let (r, a, s) := rg_loop oracle retries fuel (attempt + 1)
        (r, a + 1, s + 1)
      else
        let (r, a, s) := rg_loop oracle retries fuel (attempt + 1)
        (r, a + 1, s)
    | .serviceError =>
      if attempt < retries - 1 then
        let (r, a, s) := rg_loop oracle retries fuel (attempt + 1)
        (r, a + 1, s + 1)
      else
        let (r, a, s) := rg_loop oracle retries fuel (attempt + 1)
        (r, a + 1, s)

/-- Source `GPSExtractor.reverse_geocode` (lines 52-70): `for attempt in
range(retries)`, try the service; on a truthy location return the parsed
result; on `GeocoderTimedOut`/`GeocoderServiceError` sleep 1 second when
more attempts remain; on any other exception propagate; return `None` when
the attempts are exhausted. -/
def reverse_geocode (oracle : Nat → GeoOutcome) (retries : Nat := 2) :
    Except String (Option LocationInfo) × Nat × Nat :=
  rg_loop oracle retries retries 0

/-! ## Claims -/

/-- C1: for both providers, a `generate` call with no explicit model key
resolves the default model to the premium tier (`opus` / `gpt-4o`) when the
style is `social`, and to the fast/cheap tier (`haiku` / `gpt-4o-mini`) for
every other style; the call behaves exactly as if that default key had been
passed explicitly. -/
theorem C1_style_aware_default_model (style : String)
    (prep : Except CGError String) (netC : ClaudeRequest → ClaudeResponse)
    (netO : OpenAIRequest → OpenAIResponse) (loc : Option String) :
    resolved_claude_model style none
      = (if style = "social" then "opus" else "haiku") ∧
    resolved_openai_model style none
      = (if style = "social" then "gpt-4o" else "gpt-4o-mini") ∧
    generate_claude prep netC style none loc
      = generate_claude prep netC style (some (resolved_claude_model style none)) loc ∧
    generate_openai prep netO style none loc
      = generate_openai prep netO style (some (resolved_openai_model style none)) loc := by
  refine ⟨rfl, rfl, rfl, rfl⟩

/-- C2: for both providers, every style and any image-preparation outcome,
a `generate` call with an explicit model key absent from the active
provider's catalog fails with the invalid-model error naming the offending
key and the provider's valid key set, and performs no effect at all (in
particular no network call). -/
theorem C2_invalid_model_rejected (style : String)
    (prep : Except CGError String) (netC : ClaudeRequest → ClaudeResponse)
    (netO : OpenAIRequest → OpenAIResponse) (loc : Option String) (m : String) :
    (CLAUDE_MODELS.lookup m = none →
      generate_claude prep netC style (some m) loc
        = (.error (.invalidModel (claude_invalid_model_msg m)), []) ∧
      claude_invalid_model_msg m
        = "Invalid Claude model: " ++ m ++ ". Choose from " ++
            "[\x27haiku\x27, \x27sonnet\x27, \x27opus\x27]") ∧
    (OPENAI_MODELS.lookup m = none →
      generate_openai prep netO style (some m) loc
        = (.error (.invalidModel (openai_invalid_model_msg m)), []) ∧
      openai_invalid_model_msg m
        = "Invalid OpenAI model: " ++ m ++ ". Choose from " ++
            "[\x27gpt-4o\x27, \x27gpt-4o-mini\x27, \x27gpt-4-turbo\x27]") := by
  constructor
  · intro h
    constructor
    · simp [generate_claude, resolved_claude_model, h]
    · rfl
  · intro h
    constructor
    · simp [generate_openai, resolved_openai_model, h]
    · rfl

/-- C2 witness: the concrete key `bogus` is rejected by both providers with
the documented message and an empty effect trace. -/
theorem C2_invalid_model_rejected_witness :
    CLAUDE_MODELS.lookup "bogus" = none ∧
    OPENAI_MODELS.lookup "bogus" = none ∧
    generate_claude (Except.ok "IMG") (fun _ => ⟨["cap"]⟩) "descriptive"
        (some "bogus") none
      = (.error (.invalidModel (claude_invalid_model_msg "bogus")), []) ∧
    generate_openai (Except.ok "IMG") (fun _ => ⟨["cap"]⟩) "descriptive"
        (some "bogus") none
      = (.error (.invalidModel (openai_invalid_model_msg "bogus")), []) := by
  have h := C2_invalid_model_rejected "descriptive" (Except.ok "IMG")
    (fun _ => ⟨["cap"]⟩) (fun _ => ⟨["cap"]⟩) none "bogus"
  exact ⟨by decide, by decide, (h.1 (by decide)).1, (h.2 (by decide)).1⟩

/-- C3: for every style key present in the style table, the composed prompt
with no location context is exactly that key's template, and with a
non-empty location sentence it is the template, a blank line, then the
sentence verbatim — identically on both provider paths. -/
theorem C3_prompt_composition (key t : String)
    (hk : STYLES.lookup key = some t) (loc : String) (hloc : loc ≠ "") :
    claude_build_prompt key none = t ∧
    openai_build_prompt key none = t ∧
    claude_build_prompt key (some loc) = t ++ "\n\n" ++ loc ∧
    openai_build_prompt key (some loc) = t ++ "\n\n" ++ loc := by
  refine ⟨?_, ?_, ?_, ?_⟩ <;>
    simp [claude_build_prompt, openai_build_prompt, styles_get, hk, hloc]

/-- C3 witness: the `minimal` style composes as claimed with a concrete
location sentence. -/
theorem C3_prompt_composition_witness :
    STYLES.lookup "minimal" = some "Write a brief one-sentence caption." ∧
    claude_build_prompt "minimal" (some "Taken in Paris, France.")
      = "Write a brief one-sentence caption." ++ "\n\n" ++
          "Taken in Paris, France." ∧
    openai_build_prompt "minimal" none = "Write a brief one-sentence caption." := by
  have h := C3_prompt_composition "minimal" "Write a brief one-sentence caption."
    (by decide) "Taken in Paris, France." (by decide)
  exact ⟨by decide, h.2.2.1, h.2.1⟩

/-- C4: a style keyword absent from the style table does not fail and
resolves to the `descriptive` template, on both provider paths. -/
theorem C4_unknown_style_falls_back (key : String)
    (h : STYLES.lookup key = none) :
    styles_get key = descriptive_template ∧
    claude_build_prompt key none = descriptive_template ∧
    openai_build_prompt key none = descriptive_template := by
  refine ⟨?_, ?_, ?_⟩ <;>
    simp [claude_build_prompt, openai_build_prompt, styles_get, h]

/-- C4 witness: the unknown style key `noir` resolves to the `descriptive`
template. -/
theorem C4_unknown_style_falls_back_witness :
    STYLES.lookup "noir" = none ∧
    styles_get "noir" = descriptive_template ∧
    claude_build_prompt "noir" none = descriptive_template := by
  have h := C4_unknown_style_falls_back "noir" (by decide)
  exact ⟨by decide, h.1, h.2.1⟩

/-- C5 counterexample: in a concrete call with an invalid explicit model
key, the model-key check visibly completes (the invalid-model error is
raised) while the event trace is empty — image preparation was never
performed, so it cannot have happened before the model-key check. -/
theorem C5_counterexample :
    (generate_claude (Except.ok "IMAGEDATA") (fun _ => ⟨["caption"]⟩)
        "descriptive" (some "nope") none).1
      = .error (.invalidModel (claude_invalid_model_msg "nope")) ∧
    (generate_claude (Except.ok "IMAGEDATA") (fun _ => ⟨["caption"]⟩)
        "descriptive" (some "nope") none).2 = [] ∧
    ClaudeEvent.prepImage ∉
      (generate_claude (Except.ok "IMAGEDATA") (fun _ => ⟨["caption"]⟩)
        "descriptive" (some "nope") none).2 := by
  refine ⟨rfl, rfl, ?_⟩
  decide

/-- C5 amended: model-key validation occurs before image preparation — a
call with an invalid explicit model key fails with no effect performed (no
image preparation, no network call), and when the model key is valid, image
preparation is the first effect performed. -/
theorem C5_validation_precedes_preparation (style : String)
    (prep : Except CGError String) (netC : ClaudeRequest → ClaudeResponse)
    (netO : OpenAIRequest → OpenAIResponse) (loc : Option String) (m : String) :
    (CLAUDE_MODELS.lookup m = none →
      (generate_claude prep netC style (some m) loc).2 = []) ∧
    (OPENAI_MODELS.lookup m = none →
      (generate_openai prep netO style (some m) loc).2 = []) ∧
    ((CLAUDE_MODELS.lookup m).isSome = true →
      (generate_claude prep netC style (some m) loc).2.head?
        = some ClaudeEvent.prepImage) ∧
    ((OPENAI_MODELS.lookup m).isSome = true →
      (generate_openai prep netO style (some m) loc).2.head?
        = some OpenAIEvent.prepImage) := by
  refine ⟨?_, ?_, ?_, ?_⟩
  · intro h
    simp [generate_claude, resolved_claude_model, h]
  · intro h
    simp [generate_openai, resolved_openai_model, h]
  · intro h
    obtain ⟨info, hinfo⟩ := Option.isSome_iff_exists.mp h
    cases prep with
    | error e => simp [generate_claude, resolved_claude_model, hinfo]
    | ok img =>
      simp only [generate_claude, resolved_claude_model, hinfo]
      split <;> simp
  · intro h
    obtain ⟨info, hinfo⟩ := Option.isSome_iff_exists.mp h
    cases prep with
    | error e => simp [generate_openai, resolved_openai_model, hinfo]
    | ok img =>
      simp only [generate_openai, resolved_openai_model, hinfo]
      split <;> simp

/-- C5 amended witness: concrete instances of both halves — the invalid key
`nope` yields an empty trace, and the valid key `haiku` makes image
preparation the first effect. -/
theorem C5_validation_precedes_preparation_witness :
    (generate_claude (Except.ok "IMG") (fun _ => ⟨["cap"]⟩) "minimal"
        (some "nope") none).2 = [] ∧
    (generate_claude (Except.ok "IMG") (fun _ => ⟨["cap"]⟩) "minimal"
        (some "haiku") none).2.head? = some ClaudeEvent.prepImage ∧
    (generate_openai (Except.ok "IMG") (fun _ => ⟨["cap"]⟩) "minimal"
        (some "gpt-4o") none).2.head? = some OpenAIEvent.prepImage := by
  have h1 := C5_validation_precedes_preparation "minimal" (Except.ok "IMG")
    (fun _ => ⟨["cap"]⟩) (fun _ => ⟨["cap"]⟩) none "nope"
  have h2 := C5_validation_precedes_preparation "minimal" (Except.ok "IMG")
    (fun _ => ⟨["cap"]⟩) (fun _ => ⟨["cap"]⟩) none "haiku"
  have h3 := C5_validation_precedes_preparation "minimal" (Except.ok "IMG")
    (fun _ => ⟨["cap"]⟩) (fun _ => ⟨["cap"]⟩) none "gpt-4o"
  refine ⟨h1.1 (by decide), h2.2.2.1 (by decide), h3.2.2.2 (by decide)⟩

/-- The rounded proportional dimension never exceeds the 1600 bound when the
scaled-down side is at most the divisor. -/
lemma round_aspect_le_1600 (s l : Nat) (hl : 0 < l) (hsl : s ≤ l) :
    round_aspect (1600 * s) l ≤ 1600 := by
  unfold round_aspect
  apply max_le _ (by omega)
  rw [Nat.div_le_iff_le_mul_add_pred (by omega : 0 < 2 * l)]
  have hmul : 1600 * s ≤ 1600 * l := Nat.mul_le_mul_left 1600 hsl
  omega

/-- The rounded proportional dimension never exceeds the original dimension
when the divisor exceeds the 1600 bound (the resize never enlarges). -/
lemma round_aspect_le_self (s l : Nat) (hs : 0 < s) (hl : 1600 < l) :
    round_aspect (1600 * s) l ≤ s := by
  unfold round_aspect
  apply max_le _ hs
  rw [Nat.div_le_iff_le_mul_add_pred (by omega : 0 < 2 * l)]
  obtain ⟨q, hq⟩ : ∃ q, q = l * s := ⟨_, rfl⟩
  have key : 1601 * s ≤ q := by
    rw [hq]
    exact Nat.mul_le_mul_right s (by omega)
  have expand : 2 * l * s = 2 * q := by rw [hq]; ring
  rw [expand]
  omega

/-- The rounded proportional dimension is at least the floor of the exact
proportional value. -/
lemma floor_le_round_aspect (a b : Nat) (hb : 0 < b) :
    a / b ≤ round_aspect a b := by
  unfold round_aspect
  refine le_trans ?_ (le_max_left _ _)
  have h : a / b = 2 * a / (2 * b) := (Nat.mul_div_mul_left a b (by omega)).symm
  rw [h]
  exact Nat.div_le_div_right (by omega)

/-- The rounded proportional dimension is at most the ceiling of the exact
proportional value (clamped below by 1). -/
lemma round_aspect_le_ceil (a b : Nat) (hb : 0 < b) :
    round_aspect a b ≤ max ((a + b - 1) / b) 1 := by
  unfold round_aspect
  apply max_le _ (le_max_right _ _)
  refine le_trans ?_ (le_max_left _ _)
  have h : (a + b - 1) / b = 2 * (a + b - 1) / (2 * b) :=
    (Nat.mul_div_mul_left _ _ (by omega : (0:Nat) < 2)).symm
  rw [h]
  exact Nat.div_le_div_right (by omega)

/-- C6: the thumbnail resize never enlarges and bounds both output
dimensions by 1600 — an image already within bounds keeps its native
dimensions, and an oversized image gets its longer dimension set to exactly
1600 with the shorter dimension scaled proportionally, within rounding
(between the floor and the ceiling of the exact proportional value, clamped
below by one pixel). -/
theorem C6_image_preparation_geometry (w h : Nat) (hw : 0 < w) (hh : 0 < h) :
    (thumbnail_dims w h).1 ≤ 1600 ∧ (thumbnail_dims w h).2 ≤ 1600 ∧
    (thumbnail_dims w h).1 ≤ w ∧ (thumbnail_dims w h).2 ≤ h ∧
    (w ≤ 1600 → h ≤ 1600 → thumbnail_dims w h = (w, h)) ∧
    (1600 < h → w ≤ h →
      (thumbnail_dims w h).2 = 1600 ∧
      1600 * w / h ≤ (thumbnail_dims w h).1 ∧
      (thumbnail_dims w h).1 ≤ max ((1600 * w + h - 1) / h) 1) ∧
    (1600 < w → h < w →
      (thumbnail_dims w h).1 = 1600 ∧
      1600 * h / w ≤ (thumbnail_dims w h).2 ∧
      (thumbnail_dims w h).2 ≤ max ((1600 * h + w - 1) / w) 1) := by
  by_cases hb : w ≤ 1600 ∧ h ≤ 1600
  · have hdim : thumbnail_dims w h = (w, h) := by
      unfold thumbnail_dims
      rw [if_pos hb]
    rw [hdim]
    exact ⟨hb.1, hb.2, le_refl _, le_refl _, fun _ _ => rfl,
      fun h1 _ => absurd hb.2 (by omega), fun h1 _ => absurd hb.1 (by omega)⟩
  · by_cases hcmp : w ≤ h
    · have hl : 1600 < h := by omega
      have hdim : thumbnail_dims w h = (round_aspect (1600 * w) h, 1600) := by
        unfold thumbnail_dims
        rw [if_neg hb, if_pos hcmp]
      rw [hdim]
      refine ⟨round_aspect_le_1600 w h (by omega) hcmp, le_refl _,
        round_aspect_le_self w h hw hl, by omega,
        fun _ h2 => absurd h2 (by omega),
        fun _ _ => ⟨rfl, floor_le_round_aspect _ _ (by omega),
          round_aspect_le_ceil _ _ (by omega)⟩,
        fun _ h2 => absurd hcmp (by omega)⟩
    · have hl : 1600 < w := by omega
      have hdim : thumbnail_dims w h = (1600, round_aspect (1600 * h) w) := by
        unfold thumbnail_dims
        rw [if_neg hb, if_neg hcmp]
      rw [hdim]
      refine ⟨le_refl _, round_aspect_le_1600 h w (by omega) (by omega), by omega,
        round_aspect_le_self h w hh hl,
        fun h1 _ => absurd h1 (by omega),
        fun _ h2 => absurd h2 (by omega),
        fun _ _ => ⟨rfl, floor_le_round_aspect _ _ (by omega),
          round_aspect_le_ceil _ _ (by omega)⟩⟩

/-- C6 witness: the oversized 4000 by 3000 image of the spec scales to
exactly 1600 by 1200 and all the claimed bounds hold there. -/
theorem C6_image_preparation_geometry_witness :
    ((thumbnail_dims 4000 3000).1 ≤ 1600 ∧ (thumbnail_dims 4000 3000).2 ≤ 1600 ∧
     (thumbnail_dims 4000 3000).1 ≤ 4000 ∧ (thumbnail_dims 4000 3000).2 ≤ 3000 ∧
     (4000 ≤ 1600 → 3000 ≤ 1600 → thumbnail_dims 4000 3000 = (4000, 3000)) ∧
     (1600 < 3000 → 4000 ≤ 3000 →
       (thumbnail_dims 4000 3000).2 = 1600 ∧
       1600 * 4000 / 3000 ≤ (thumbnail_dims 4000 3000).1 ∧
       (thumbnail_dims 4000 3000).1 ≤ max ((1600 * 4000 + 3000 - 1) / 3000) 1) ∧
     (1600 < 4000 → 3000 < 4000 →
       (thumbnail_dims 4000 3000).1 = 1600 ∧
       1600 * 3000 / 4000 ≤ (thumbnail_dims 4000 3000).2 ∧
       (thumbnail_dims 4000 3000).2 ≤ max ((1600 * 3000 + 4000 - 1) / 4000) 1)) ∧
    thumbnail_dims 4000 3000 = (1600, 1200) := by
  exact ⟨C6_image_preparation_geometry 4000 3000 (by decide) (by decide), by decide⟩

/-- Under persistently retryable failures (timeout or service error at every
attempt), the retry loop makes one attempt per unit of fuel, sleeps between
consecutive attempts, and finally returns `None` without raising. -/
lemma rg_loop_all_retryable (oracle : Nat → GeoOutcome) (retries : Nat) :
    ∀ fuel attempt, attempt + fuel = retries →
    (∀ i, attempt ≤ i → i < retries →
      oracle i = GeoOutcome.timeout ∨ oracle i = GeoOutcome.serviceError) →
    rg_loop oracle retries fuel attempt = (.ok none, fuel, fuel - 1) := by
  intro fuel
  induction fuel with
  | zero => intro attempt _ _; rfl
  | succ n ih =>
    intro attempt hsum hall
    have hatt : attempt < retries := by omega
    have hrec := ih (attempt + 1) (by omega) (fun i h1 h2 => hall i (by omega) h2)
    rcases hall attempt (le_refl _) hatt with hoc | hoc <;>
    · simp only [rg_loop, hoc]
      by_cases hlt : attempt < retries - 1
      · rw [if_pos hlt, hrec]
        have hn : 1 ≤ n := by omega
        simp only [Prod.mk.injEq]
        exact ⟨trivial, trivial, by omega⟩
      · rw [if_neg hlt, hrec]
        have hn : n = 0 := by omega
        subst hn
        rfl

/-- An uncaught exception escapes the retry loop only when some attempt
raised an exception other than the two retryable geocoder errors. -/
lemma rg_loop_error_imp (oracle : Nat → GeoOutcome) (retries : Nat) :
    ∀ fuel attempt msg,
    (rg_loop oracle retries fuel attempt).1 = .error msg →
    ∃ i, attempt ≤ i ∧ i < attempt + fuel ∧
      oracle i = GeoOutcome.otherError msg := by
  intro fuel
  induction fuel with
  | zero =>
    intro attempt msg h
    exact absurd h (by simp [rg_loop])
  | succ n ih =>
    intro attempt msg h
    rcases hoc : oracle attempt with _ | _ | m | loc
    case timeout =>
      simp only [rg_loop, hoc] at h
      by_cases hlt : attempt < retries - 1
      · rw [if_pos hlt] at h
        rcases he : rg_loop oracle retries n (attempt + 1) with ⟨r, a, s⟩
        rw [he] at h
        simp only at h
        obtain ⟨i, h1, h2, h3⟩ := ih (attempt + 1) msg (by rw [he]; exact h)
        exact ⟨i, by omega, by omega, h3⟩
      · rw [if_neg hlt] at h
        rcases he : rg_loop oracle retries n (attempt + 1) with ⟨r, a, s⟩
        rw [he] at h
        simp only at h
        obtain ⟨i, h1, h2, h3⟩ := ih (attempt + 1) msg (by rw [he]; exact h)
        exact ⟨i, by omega, by omega, h3⟩
    case serviceError =>
      simp only [rg_loop, hoc] at h
      by_cases hlt : attempt < retries - 1
      · rw [if_pos hlt] at h
        rcases he : rg_loop oracle retries n (attempt + 1) with ⟨r, a, s⟩
        rw [he] at h
        simp only at h
        obtain ⟨i, h1, h2, h3⟩ := ih (attempt + 1) msg (by rw [he]; exact h)
        exact ⟨i, by omega, by omega, h3⟩
      · rw [if_neg hlt] at h
        rcases he : rg_loop oracle retries n (attempt + 1) with ⟨r, a, s⟩
        rw [he] at h
        simp only at h
        obtain ⟨i, h1, h2, h3⟩ := ih (attempt + 1) msg (by rw [he]; exact h)
        exact ⟨i, by omega, by omega, h3⟩
    case otherError =>
      simp only [rg_loop, hoc] at h
      simp only [Except.error.injEq] at h
      exact ⟨attempt, le_refl _, by omega, by rw [hoc, h]⟩
    case ok =>
      cases loc with
      | none =>
        simp only [rg_loop, hoc] at h
        rcases he : rg_loop oracle retries n (attempt + 1) with ⟨r, a, s⟩
        rw [he] at h
        simp only at h
        obtain ⟨i, h1, h2, h3⟩ := ih (attempt + 1) msg (by rw [he]; exact h)
        exact ⟨i, by omega, by omega, h3⟩
      | some raw =>
        simp only [rg_loop, hoc] at h
        exact absurd h (by simp)

/-- C7 counterexample: an attempt that raises an exception other than a
timeout or service error (here a `ValueError`) is not absorbed —
`reverse_geocode` propagates it to the caller instead of returning `None`. -/
theorem C7_counterexample :
    reverse_geocode (fun _ => GeoOutcome.otherError "ValueError: boom") 2
      = (Except.error "ValueError: boom", 1, 0) ∧
    (reverse_geocode (fun _ => GeoOutcome.otherError "ValueError: boom") 2).1
      ≠ Except.ok none := by
  exact ⟨rfl, by simp [reverse_geocode, rg_loop]⟩

/-- C7 amended: only service timeouts and service errors are absorbed by
`reverse_geocode` — when every attempt fails with one of those it retries up
to the retry count and returns `None` without raising, while any other
exception propagates to the caller (an error escapes only when some attempt
raised a non-retryable exception). -/
theorem C7_error_absorption_scope (oracle : Nat → GeoOutcome) (retries : Nat) :
    ((∀ i, i < retries →
        oracle i = GeoOutcome.timeout ∨ oracle i = GeoOutcome.serviceError) →
      reverse_geocode oracle retries = (.ok none, retries, retries - 1)) ∧
    (∀ msg, (reverse_geocode oracle retries).1 = .error msg →
      ∃ i, i < retries ∧ oracle i = GeoOutcome.otherError msg) := by
  constructor
  · intro hall
    exact rg_loop_all_retryable oracle retries retries 0 (by omega)
      (fun i _ h2 => hall i h2)
  · intro msg h
    obtain ⟨i, h1, h2, h3⟩ := rg_loop_error_imp oracle retries retries 0 msg h
    exact ⟨i, by omega, h3⟩

/-- C7 amended witness: persistent service errors are absorbed into `None`
after two attempts, and a propagated `ValueError` is traced to the attempt
that raised it. -/
theorem C7_error_absorption_scope_witness :
    reverse_geocode (fun _ => GeoOutcome.serviceError) 2 = (.ok none, 2, 1) ∧
    ∃ i, i < 2 ∧ (fun _ => GeoOutcome.otherError "boom") i
      = GeoOutcome.otherError "boom" := by
  have h1 := C7_error_absorption_scope (fun _ => GeoOutcome.serviceError) 2
  have h2 := C7_error_absorption_scope (fun _ => GeoOutcome.otherError "boom") 2
  exact ⟨h1.1 (fun i _ => Or.inr rfl), h2.2 "boom" rfl⟩

/-- C8: with the default retry count of two, persistent retryable failures
produce exactly two attempts, exactly one one-second sleep (between the two
attempts), and a final `None` result. -/
theorem C8_two_attempts_one_sleep (oracle : Nat → GeoOutcome)
    (hall : ∀ i, i < 2 →
      oracle i = GeoOutcome.timeout ∨ oracle i = GeoOutcome.serviceError) :
    reverse_geocode oracle 2 = (.ok none, 2, 1) :=
  rg_loop_all_retryable oracle 2 2 0 (by omega) (fun i _ h2 => hall i h2)

/-- C8 witness: a persistently timing-out service yields two attempts, one
sleep and `None`. -/
theorem C8_two_attempts_one_sleep_witness :
    reverse_geocode (fun _ => GeoOutcome.timeout) 2 = (.ok none, 2, 1) :=
  C8_two_attempts_one_sleep (fun _ => GeoOutcome.timeout) (fun _ _ => Or.inl rfl)

/-- C9: on both provider paths a successful `generate` call performs image
preparation and then exactly one network request, the request carries a
maximum output token count of 300, and the returned caption is the
provider's extracted text (first content segment for claude, first choice's
message content for openai) with surrounding whitespace stripped. -/
theorem C9_request_and_output_contract (img : String)
    (netC : ClaudeRequest → ClaudeResponse)
    (netO : OpenAIRequest → OpenAIResponse) (style : String)
    (modelC modelO : Option String) (loc : Option String)
    (hC : (CLAUDE_MODELS.lookup (resolved_claude_model style modelC)).isSome
            = true)
    (hO : (OPENAI_MODELS.lookup (resolved_openai_model style modelO)).isSome
            = true)
    (hnC : ∀ r, (netC r).content ≠ [])
    (hnO : ∀ r, (netO r).choices ≠ []) :
    ∃ reqC reqO tC tO,
      (generate_claude (.ok img) netC style modelC loc).2
        = [ClaudeEvent.prepImage, ClaudeEvent.netCall reqC] ∧
      reqC.maxTokens = 300 ∧
      (netC reqC).content.head? = some tC ∧
      (generate_claude (.ok img) netC style modelC loc).1 = .ok (py_strip tC) ∧
      (generate_openai (.ok img) netO style modelO loc).2
        = [OpenAIEvent.prepImage, OpenAIEvent.netCall reqO] ∧
      reqO.maxTokens = 300 ∧
      (netO reqO).choices.head? = some tO ∧
      (generate_openai (.ok img) netO style modelO loc).1 = .ok (py_strip tO) := by
  obtain ⟨infoC, hiC⟩ := Option.isSome_iff_exists.mp hC
  obtain ⟨infoO, hiO⟩ := Option.isSome_iff_exists.mp hO
  rcases hcc : (netC (ClaudeRequest.mk infoC.name 300 img
      (claude_build_prompt style loc))).content with _ | ⟨tC, restC⟩
  · exact absurd hcc (hnC _)
  rcases hoo : (netO (OpenAIRequest.mk infoO.name 300
      ("data:image/jpeg;base64," ++ img)
      (openai_build_prompt style loc))).choices with _ | ⟨tO, restO⟩
  · exact absurd hoo (hnO _)
  refine ⟨ClaudeRequest.mk infoC.name 300 img (claude_build_prompt style loc),
          OpenAIRequest.mk infoO.name 300 ("data:image/jpeg;base64," ++ img)
            (openai_build_prompt style loc), tC, tO,
          ?_, rfl, ?_, ?_, ?_, rfl, ?_, ?_⟩ <;>
    simp [generate_claude, generate_openai, hiC, hiO, hcc, hoo]

/-- C9 witness: a concrete successful call on each path issues one request
with 300 max tokens and returns the stripped first text segment. -/
theorem C9_request_and_output_contract_witness :
    ∃ reqC reqO tC tO,
      (generate_claude (.ok "IMG") (fun _ => ⟨["  a caption  "]⟩) "descriptive"
          none none).2
        = [ClaudeEvent.prepImage, ClaudeEvent.netCall reqC] ∧
      reqC.maxTokens = 300 ∧
      ((fun (_ : ClaudeRequest) => ClaudeResponse.mk ["  a caption  "]) reqC).content.head?
        = some tC ∧
      (generate_claude (.ok "IMG") (fun _ => ⟨["  a caption  "]⟩) "descriptive"
          none none).1 = .ok (py_strip tC) ∧
      (generate_openai (.ok "IMG") (fun _ => ⟨["  another  "]⟩) "descriptive"
          none none).2
        = [OpenAIEvent.prepImage, OpenAIEvent.netCall reqO] ∧
      reqO.maxTokens = 300 ∧
      ((fun (_ : OpenAIRequest) => OpenAIResponse.mk ["  another  "]) reqO).choices.head?
        = some tO ∧
      (generate_openai (.ok "IMG") (fun _ => ⟨["  another  "]⟩) "descriptive"
          none none).1 = .ok (py_strip tO) :=
  C9_request_and_output_contract "IMG" (fun _ => ⟨["  a caption  "]⟩)
    (fun _ => ⟨["  another  "]⟩) "descriptive" none none none
    (by decide) (by decide) (fun _ => by simp) (fun _ => by simp)

/-- C10: the constructor matches the provider name case-insensitively — with
a credential supplied, any string lowercasing to `claude` or `openai` is
accepted and bound to that provider and its catalog, and exactly the strings
lowercasing to neither are rejected with the invalid-provider error. -/
theorem C10_provider_case_insensitive (p k : String)
    (env : String → Option String) (hk : k ≠ "") :
    (py_lower p = "claude" →
      caption_generator_init (some k) p env
        = .ok { provider := .claude, api_key := k, models := CLAUDE_MODELS }) ∧
    (py_lower p = "openai" →
      caption_generator_init (some k) p env
        = .ok { provider := .openai, api_key := k, models := OPENAI_MODELS }) ∧
    (py_lower p ≠ "claude" → py_lower p ≠ "openai" →
      caption_generator_init (some k) p env
        = .error (invalid_provider_msg p)) := by
  refine ⟨?_, ?_, ?_⟩
  · intro hp
    simp [caption_generator_init, hp, py_or_str, py_falsy, hk]
  · intro hp
    simp [caption_generator_init, hp, py_or_str, py_falsy, hk]
  · intro hp1 hp2
    simp [caption_generator_init, hp1, hp2]

/-- C10 witness: `CLAUDE` and `OpenAI` are accepted and bound to their
providers, while `gemini` is rejected with the invalid-provider error. -/
theorem C10_provider_case_insensitive_witness :
    caption_generator_init (some "sk-key") "CLAUDE" (fun _ => none)
      = .ok { provider := .claude, api_key := "sk-key",
              models := CLAUDE_MODELS } ∧
    caption_generator_init (some "sk-key") "OpenAI" (fun _ => none)
      = .ok { provider := .openai, api_key := "sk-key",
              models := OPENAI_MODELS } ∧
    caption_generator_init (some "sk-key") "gemini" (fun _ => none)
      = .error (invalid_provider_msg "gemini") := by
  have h1 := C10_provider_case_insensitive "CLAUDE" "sk-key" (fun _ => none)
    (by decide)
  have h2 := C10_provider_case_insensitive "OpenAI" "sk-key" (fun _ => none)
    (by decide)
  have h3 := C10_provider_case_insensitive "gemini" "sk-key" (fun _ => none)
    (by decide)
  exact ⟨h1.1 (by decide), h2.2.1 (by decide), h3.2.2 (by decide) (by decide)⟩
